import Mathlib

/-!
Shallow embedding of the inventory-api service (Go / gin / gorm).

The data model follows models (User, Item, Location); the handlers follow
routes (items, locations, auth, user) and middleware/auth.go.  The external
collaborators (gorm queries, the golang-jwt/v4 library, bcrypt) are modelled
at the level of their documented behaviour: gorm primary-key lookups become
List.find? on the record lists, soft deletion becomes a Boolean flag that
default queries exclude, and a signed JWT is represented by its algorithm,
its claims map and the key it was signed with.
-/

namespace InventoryAPI

/-- models.User: id, name, email (unique), password (bcrypt hash), with gorm
soft deletion (DeletedAt) modelled as a Boolean flag. -/
structure User where
  id : Nat
  name : String
  email : String
  password : String
  deleted : Bool
deriving Repr, DecidableEq

/-- models.Item: owner is the userId field; locationId references a Location. -/
structure Item where
  id : Nat
  name : String
  description : String
  userId : Nat
  locationId : Nat
  imageUrl : String
deriving Repr, DecidableEq

/-- models.Location: userId 0 is the sentinel public (unowned) state, matching
the handlers, which treat user_id = 0 OR user_id IS NULL as public. -/
structure Location where
  id : Nat
  name : String
  description : String
  imageUrl : String
  userId : Nat
deriving Repr, DecidableEq

/-- The persistence collaborator: the three record tables. -/
structure DB where
  users : List User
  items : List Item
  locations : List Location
deriving Repr, DecidableEq

/-- Modelled from the spec: the Password Hasher collaborator
(golang.org/x/crypto/bcrypt, not part of this repository).  A deterministic
stand-in: hashing tags the plaintext, verification recomputes and compares;
verification fails closed on any mismatch. -/
def bcryptHash (pw : String) : String := "bcrypt$" ++ pw

/-- Modelled from the spec: bcrypt.CompareHashAndPassword succeeds exactly when
the stored hash is the hash of the presented password. -/
def bcryptVerify (hash pw : String) : Bool := hash == bcryptHash pw

/-- The claims map carried by a token.  Go MapClaims is a JSON object; a field
that is absent, or present with an unusable dynamic type (a non-number where
float64 is asserted, a non-string compared against a string), is none. -/
structure ClaimsMap where
  userId : Option Nat
  exp : Option Nat
  iat : Option Nat
  typ : Option String
deriving Repr, DecidableEq

/-- A decoded JWT: header algorithm, claims, and the key whose HMAC produced
the signature.  The signature itself is tamper evident, so a token is
represented by the key that signed it. -/
structure SignedToken where
  alg : String
  claims : ClaimsMap
  key : String
deriving Repr, DecidableEq

/-- The keyfunc in both the middleware and RefreshToken accepts only the HMAC
family of signing methods. -/
def isHMACAlg (a : String) : Bool := a == "HS256" || a == "HS384" || a == "HS512"

/-- jwt.Parse of golang-jwt/v4 with the keyfunc used by this service: reject a
non-HMAC algorithm, a signature not made with the server secret, an expired
token (valid only while now < exp) and a token issued in the future; otherwise
yield the claims map.  Parse failures and invalid tokens collapse to none,
matching the single err-or-invalid branch in the Go callers. -/
def jwtParse (secret : String) (now : Nat) (t : SignedToken) : Option ClaimsMap :=
  if isHMACAlg t.alg && t.key == secret
      && (match t.claims.exp with | none => true | some e => decide (now < e))
      && (match t.claims.iat with | none => true | some i => decide (i ≤ now)) then
    some t.claims
  else
    none

/-- routes/auth.go generateTokens: mints the access/refresh pair for a subject.
The Go code reads the clock once per claims object; both reads are modelled by
the single now parameter.  Access expires in 1 hour (3600 s), refresh in
7 days (604800 s). -/
def generateTokens (secret : String) (userID now : Nat) : SignedToken × SignedToken :=
  (⟨"HS256", ⟨some userID, some (now + 3600), some now, some "access"⟩, secret⟩,
   ⟨"HS256", ⟨some userID, some (now + 604800), some now, some "refresh"⟩, secret⟩)

/-- The Authorization header of a request, after the two string-level checks
the middleware performs: absent (empty string), present without the
Bearer prefix, or a Bearer credential. -/
inductive BearerPayload where
  | malformed
  | tok (t : SignedToken)
deriving Repr, DecidableEq

inductive AuthHeader where
  | missing
  | nonBearer (raw : String)
  | bearer (payload : BearerPayload)
deriving Repr, DecidableEq

/-- Outcome of the middleware on one request: rejected (a response is written
and c.Abort is called, so the downstream handler never runs), panicked (the
goroutine panics inside the middleware, so the downstream handler never runs
and no ordinary response is produced), or proceed (the identity is stored in
the request context under user_id and c.Next runs the handler). -/
inductive MWOutcome where
  | rejected (status : Nat) (msg : String)
  | panicked
  | proceed (userID : Nat)
deriving Repr, DecidableEq

/-- middleware/auth.go AuthMiddleware.  The token.Valid recheck and the
MapClaims type assertion guard in the Go code are unreachable with jwt.Parse
(err is nil exactly when the token is valid, and Parse always yields
MapClaims), so both collapse into jwtParse here.  The user_id extraction is an
unchecked float64 type assertion in the Go code: a missing or non-numeric
user_id claim panics. -/
def AuthMiddleware (secret : String) (now : Nat) (h : AuthHeader) : MWOutcome :=
  match h with
  | .missing => .rejected 401 "Authorization header required"
  | .nonBearer _ => .rejected 401 "Authorization header required"
  | .bearer .malformed => .rejected 401 "Invalid or expired token"
  | .bearer (.tok t) =>
    match jwtParse secret now t with
    | none => .rejected 401 "Invalid or expired token"
    | some cl =>
      if cl.typ != some "access" then .rejected 401 "Invalid token type"
      else
        match cl.userId with
        | none => .panicked
        | some uid => .proceed uid

/-- Result of a handler: an HTTP status with either the JSON payload or an
error message. -/
inductive HResult (α : Type) where
  | ok (status : Nat) (val : α)
  | err (status : Nat) (msg : String)
deriving Repr, DecidableEq

def HResult.status {α : Type} : HResult α → Nat
  | .ok s _ => s
  | .err s _ => s

/-- gorm auto-assigns a fresh primary key on Create when the struct key is 0. -/
def nextItemId (db : DB) : Nat := (db.items.map (fun x => x.id)).foldr Nat.max 0 + 1

def nextLocationId (db : DB) : Nat := (db.locations.map (fun x => x.id)).foldr Nat.max 0 + 1

def nextUserId (db : DB) : Nat := (db.users.map (fun x => x.id)).foldr Nat.max 0 + 1

/-- gorm Save: update the row with the same primary key, or insert it. -/
def DB.saveItem (db : DB) (it : Item) : DB :=
  if db.items.any (fun x => x.id == it.id) then
    { db with items := db.items.map (fun x => if x.id == it.id then it else x) }
  else
    { db with items := db.items ++ [it] }

def DB.saveLocation (db : DB) (l : Location) : DB :=
  if db.locations.any (fun x => x.id == l.id) then
    { db with locations := db.locations.map (fun x => if x.id == l.id then l else x) }
  else
    { db with locations := db.locations ++ [l] }

def DB.saveUser (db : DB) (u : User) : DB :=
  if db.users.any (fun x => x.id == u.id) then
    { db with users := db.users.map (fun x => if x.id == u.id then u else x) }
  else
    { db with users := db.users ++ [u] }

/-- routes/items.go CreateItem: bind the body, force the owner to the
authenticated identity, create.  body is the struct state after ShouldBindJSON
(any owner value the caller supplied is in body.userId and is overwritten). -/
def CreateItem (db : DB) (uid : Nat) (body : Item) : HResult Item × DB :=
  let it : Item :=
    { body with id := if body.id == 0 then nextItemId db else body.id, userId := uid }
  (.ok 201 it, { db with items := db.items ++ [it] })

/-- routes/items.go GetItem: fetch by primary key, then enforce ownership. -/
def GetItem (db : DB) (uid itemId : Nat) : HResult Item :=
  match db.items.find? (fun x => x.id == itemId) with
  | none => .err 404 "Item not found"
  | some it =>
    if it.userId != uid then .err 403 "You do not have permission to view this item"
    else .ok 200 it

/-- routes/items.go UpdateItem: fetch, enforce ownership, bind the body over
the fetched struct, restore the original owner, save.  body is the struct
state after ShouldBindJSON. -/
def UpdateItem (db : DB) (uid itemId : Nat) (body : Item) : HResult Item × DB :=
  match db.items.find? (fun x => x.id == itemId) with
  | none => (.err 404 "Item not found", db)
  | some it =>
    if it.userId != uid then
      (.err 403 "You do not have permission to update this item", db)
    else
      let saved : Item := { body with userId := it.userId }
      (.ok 200 saved, db.saveItem saved)

/-- routes/items.go DeleteItem: fetch, enforce ownership, delete by key. -/
def DeleteItem (db : DB) (uid itemId : Nat) : HResult String × DB :=
  match db.items.find? (fun x => x.id == itemId) with
  | none => (.err 404 "Item not found", db)
  | some it =>
    if it.userId != uid then
      (.err 403 "You do not have permission to delete this item", db)
    else
      (.ok 200 "Item deleted successfully",
       { db with items := db.items.filter (fun x => !(x.id == it.id)) })

/-- routes/locations.go CreateLocation: require a nonzero identity, force the
owner to the authenticated identity, create. -/
def CreateLocation (db : DB) (uid : Nat) (body : Location) : HResult Location × DB :=
  if uid == 0 then (.err 401 "User ID not found in token", db)
  else
    let l : Location :=
      { body with id := if body.id == 0 then nextLocationId db else body.id, userId := uid }
    (.ok 201 l, { db with locations := db.locations ++ [l] })

/-- routes/locations.go GetLocation: one query filtered to the row with the
given id that is either public (owner 0) or owned by the caller; a row owned
by someone else is indistinguishable from an absent row (404). -/
def GetLocation (db : DB) (uid locId : Nat) : HResult Location :=
  if uid == 0 then .err 401 "User ID not found in token"
  else
    match db.locations.find? (fun x => x.id == locId && (x.userId == uid || x.userId == 0)) with
    | none => .err 404 "Location not found or access denied"
    | some l => .ok 200 l

/-- routes/locations.go UpdateLocation: the query itself enforces ownership;
only name, description and imageUrl are taken from the body, preserving the
owner.  (The 404 message is abbreviated here to avoid an apostrophe.) -/
def UpdateLocation (db : DB) (uid locId : Nat) (body : Location) : HResult Location × DB :=
  if uid == 0 then (.err 401 "User ID not found in token", db)
  else
    match db.locations.find? (fun x => x.id == locId && x.userId == uid) with
    | none => (.err 404 "Location not found or no permission to update it", db)
    | some l =>
      let saved : Location :=
        { l with name := body.name, description := body.description, imageUrl := body.imageUrl }
      (.ok 200 saved, db.saveLocation saved)

/-- routes/locations.go DeleteLocation: the query enforces ownership, then the
referential guard rejects with 400 while any item still references the
location.  (The 404 message is abbreviated here to avoid an apostrophe.) -/
def DeleteLocation (db : DB) (uid locId : Nat) : HResult String × DB :=
  if uid == 0 then (.err 401 "User ID not found in token", db)
  else
    match db.locations.find? (fun x => x.id == locId && x.userId == uid) with
    | none => (.err 404 "Location not found or no permission to delete it", db)
    | some l =>
      if 0 < db.items.countP (fun x => x.locationId == locId) then
        (.err 400 "Cannot delete location with linked items", db)
      else
        (.ok 200 "Location deleted successfully",
         { db with locations := db.locations.filter (fun x => !(x.id == l.id)) })

/-- gin binding for Register: name required, email required with email format
(modelled as containing an at sign), password required with min length 6. -/
def validRegisterInput (name email pw : String) : Bool :=
  name != "" && email.data.contains '@' && decide (6 ≤ pw.length)

/-- routes/auth.go Register: validate, hash, create (the unique index on email
makes the create fail for a duplicate email, surfaced as a 500 with a fixed
message and no new record), then mint the token pair. -/
def Register (secret : String) (now : Nat) (db : DB) (name email pw : String) :
    HResult (User × SignedToken × SignedToken) × DB :=
  if !(validRegisterInput name email pw) then (.err 400 "Invalid input", db)
  else if db.users.any (fun u => u.email == email) then
    (.err 500 "Failed to create user. Email might already be registered.", db)
  else
    let u : User := ⟨nextUserId db, name, email, bcryptHash pw, false⟩
    let db2 : DB := { db with users := db.users ++ [u] }
    if secret == "" then (.err 500 "Failed to finalize registration", db2)
    else (.ok 201 (u, generateTokens secret u.id now), db2)

def validLoginInput (email pw : String) : Bool := email.data.contains '@' && pw != ""

/-- routes/auth.go Login: find the (non-deleted) user by email; an unknown
email and a wrong password both answer 401 with the identical body. -/
def Login (secret : String) (now : Nat) (db : DB) (email pw : String) :
    HResult (User × SignedToken × SignedToken) :=
  if !(validLoginInput email pw) then .err 400 "Invalid input"
  else
    match db.users.find? (fun u => u.email == email && !u.deleted) with
    | none => .err 401 "Invalid credentials"
    | some u =>
      if !(bcryptVerify u.password pw) then .err 401 "Invalid credentials"
      else if secret == "" then .err 500 "Failed to generate login tokens"
      else .ok 200 (u, generateTokens secret u.id now)

/-- routes/auth.go RefreshToken: bind, check the secret, parse, require the
refresh type (with a checked string assertion), extract user_id (with a
checked float64 assertion, 500 on failure), re-resolve the subject against the
store (soft-deleted accounts are absent, answered 401), then mint a new pair. -/
def RefreshToken (secret : String) (now : Nat) (db : DB) (body : Option BearerPayload) :
    HResult (SignedToken × SignedToken) :=
  match body with
  | none => .err 400 "Invalid input"
  | some p =>
    if secret == "" then .err 500 "Server configuration error"
    else
      match p with
      | .malformed => .err 401 "Invalid or expired refresh token"
      | .tok t =>
        match jwtParse secret now t with
        | none => .err 401 "Invalid or expired refresh token"
        | some cl =>
          if cl.typ != some "refresh" then .err 401 "Invalid token type provided"
          else
            match cl.userId with
            | none => .err 500 "Could not parse user ID from token"
            | some uid =>
              match db.users.find? (fun u => u.id == uid && !u.deleted) with
              | none => .err 401 "User associated with token not found"
              | some _ => .ok 200 (generateTokens secret uid now)

/-- Response of the unauthenticated debug endpoint GET /auth/check-user: both
outcomes are HTTP 200, distinguished by the exists field of the body. -/
inductive CheckUserResult where
  | missingEmail
  | found (id : Nat) (name email : String)
  | notFound
deriving Repr, DecidableEq

/-- routes/auth.go CheckUserExists: registered in AuthRoutes without the
middleware, so it is reachable without any token. -/
def CheckUserExists (db : DB) (email : String) : CheckUserResult :=
  if email == "" then .missingEmail
  else
    match db.users.find? (fun u => u.email == email && !u.deleted) with
    | none => .notFound
    | some u => .found u.id u.name u.email

/-- The update body bound by routes/user.go UpdateUser; an empty string means
the field was not provided. -/
structure UserUpdate where
  name : String
  email : String
  password : String
deriving Repr, DecidableEq

/-- routes/user.go GetUser: fetch by primary key and return the record with
the password blanked.  The authenticated identity uid is available in the
request context but the handler never reads it. -/
def GetUser (db : DB) (uid targetId : Nat) : HResult User :=
  match db.users.find? (fun v => v.id == targetId && !v.deleted) with
  | none => .err 404 "User not found"
  | some u => .ok 200 { u with password := "" }

/-- routes/user.go UpdateUser: fetch by primary key, apply the provided
fields (with an email-uniqueness conflict check), hash a provided password,
save.  The authenticated identity uid is never read. -/
def UpdateUser (db : DB) (uid targetId : Nat) (upd : UserUpdate) : HResult User × DB :=
  match db.users.find? (fun v => v.id == targetId && !v.deleted) with
  | none => (.err 404 "User not found", db)
  | some u =>
    let u1 : User := if upd.name != "" then { u with name := upd.name } else u
    if upd.email != ""
        && db.users.any (fun v => v.email == upd.email && !(v.id == targetId) && !v.deleted) then
      (.err 409 "Email is already taken", db)
    else
      let u2 : User := if upd.email != "" then { u1 with email := upd.email } else u1
      let u3 : User := if upd.password != "" then { u2 with password := bcryptHash upd.password } else u2
      (.ok 200 { u3 with password := "" }, db.saveUser u3)

/-- routes/user.go DeleteUser: fetch by primary key and soft-delete.  The
authenticated identity uid is never read. -/
def DeleteUser (db : DB) (uid targetId : Nat) : HResult String × DB :=
  match db.users.find? (fun v => v.id == targetId && !v.deleted) with
  | none => (.err 404 "User not found", db)
  | some u =>
    (.ok 200 "User successfully deleted",
     { db with users := db.users.map (fun v => if v.id == u.id then { v with deleted := true } else v) })

/-! Concrete records used by witnesses and counterexamples. -/

def demoAlice : User := ⟨1, "Alice", "alice@example.com", bcryptHash "secret1", false⟩

def demoBob : User := ⟨2, "Bob", "bob@example.com", bcryptHash "secret2", false⟩

def demoItem : Item := ⟨10, "Lamp", "desk lamp", 1, 20, ""⟩

def demoLoc : Location := ⟨20, "Shelf", "garage shelf", "", 1⟩

def demoPublicLoc : Location := ⟨30, "Lobby", "shared lobby", "", 0⟩

def demoDB : DB := ⟨[demoAlice, demoBob], [demoItem], [demoLoc, demoPublicLoc]⟩

/-- A signed, unexpired access token that carries no user_id claim: it passes
every check the middleware makes before identity extraction. -/
def noSubjectToken : SignedToken :=
  ⟨"HS256", ⟨none, some 5000, some 1000, some "access"⟩, "topsecret"⟩

/-! Helper lemmas about the query model. -/

lemma jwtParse_claims_of_eq_some {secret : String} {now : Nat} {t : SignedToken}
    {cl : ClaimsMap} (h : jwtParse secret now t = some cl) : cl = t.claims := by
  unfold jwtParse at h
  split at h
  · exact (Option.some.injEq _ _ ▸ h).symm
  · exact absurd h (by simp)

lemma find?_eq_none_of_all {α : Type} (p : α → Bool) (l : List α)
    (h : ∀ x ∈ l, p x = false) : l.find? p = none :=
  List.find?_eq_none.mpr (fun x hx => by simp [h x hx])

/-- On a list of locations whose rows with the given id are all public, and
which holds at least one row with that id, the access-filtered query of
GetLocation answers with a public row. -/
lemma find?_public_location (B pubId : Nat) (locs : List Location)
    (hall : ∀ l ∈ locs, l.id = pubId → l.userId = 0)
    (hex : ∃ l ∈ locs, l.id = pubId) :
    ∃ l, locs.find? (fun x => x.id == pubId && (x.userId == B || x.userId == 0)) = some l ∧
      l.userId = 0 := by
  induction locs with
  | nil => simp at hex
  | cons a tl ih =>
    by_cases ha : a.id = pubId
    · have h0 : a.userId = 0 := hall a (by simp) ha
      have hpos : (a.id == pubId && (a.userId == B || a.userId == 0)) = true := by
        simp [ha, h0]
      exact ⟨a, by simp [List.find?_cons, hpos], h0⟩
    · have hneg : (a.id == pubId && (a.userId == B || a.userId == 0)) = false := by
        simp [ha]
      have hrec := ih (fun l hl hid => hall l (by simp [hl]) hid) ?_
      · obtain ⟨l, hfind, hl0⟩ := hrec
        exact ⟨l, by simp [List.find?_cons, hneg, hfind], hl0⟩
      · rcases hex with ⟨l, hl, hid⟩
        rcases List.mem_cons.mp hl with rfl | hmem
        · exact absurd hid ha
        · exact ⟨l, hmem, hid⟩

/-! Theorems settling the claims. -/

/-- C8: for every subject, the minted pair consists of an access token whose
type claim is "access" and a refresh token whose type claim is "refresh", and
the access expiry is strictly earlier than the refresh expiry. -/
theorem token_issuance_invariant (secret : String) (uid now : Nat) :
    (generateTokens secret uid now).1.claims.typ = some "access" ∧
    (generateTokens secret uid now).2.claims.typ = some "refresh" ∧
    ∃ ea er, (generateTokens secret uid now).1.claims.exp = some ea ∧
      (generateTokens secret uid now).2.claims.exp = some er ∧ ea < er :=
  ⟨rfl, rfl, now + 3600, now + 604800, rfl, rfl, by omega⟩

/-- C5: a token that passes signature, expiry and type checks but carries no
user_id claim makes the middleware panic (the unchecked float64 assertion at
middleware/auth.go line 66) instead of rejecting the request, contradicting
the verification contract; the same assertion is guarded everywhere else in
the codebase. -/
theorem auth_middleware_missing_subject_panics :
    jwtParse "topsecret" 1000 noSubjectToken = some noSubjectToken.claims ∧
    noSubjectToken.claims.typ = some "access" ∧
    AuthMiddleware "topsecret" 1000 (.bearer (.tok noSubjectToken)) = .panicked := by
  decide

/-- C6: the Auth Gate halts on every failure: a missing or non-Bearer
authorization header, a malformed credential, any parse or validity failure,
and a wrong type claim each produce a 401 rejection in which the downstream
handler never runs (rejected means c.Abort without c.Next); and the handler
runs (proceed) only when the verified access-token identity has been attached
to the request context. -/
theorem auth_gate_halts (secret : String) (now : Nat) :
    (AuthMiddleware secret now .missing = .rejected 401 "Authorization header required") ∧
    (∀ s, AuthMiddleware secret now (.nonBearer s) =
      .rejected 401 "Authorization header required") ∧
    (AuthMiddleware secret now (.bearer .malformed) =
      .rejected 401 "Invalid or expired token") ∧
    (∀ t, jwtParse secret now t = none →
      AuthMiddleware secret now (.bearer (.tok t)) = .rejected 401 "Invalid or expired token") ∧
    (∀ t cl, jwtParse secret now t = some cl → cl.typ ≠ some "access" →
      AuthMiddleware secret now (.bearer (.tok t)) = .rejected 401 "Invalid token type") ∧
    (∀ h uid, AuthMiddleware secret now h = .proceed uid →
      ∃ t, h = .bearer (.tok t) ∧ jwtParse secret now t = some t.claims ∧
        t.claims.typ = some "access" ∧ t.claims.userId = some uid) := by
  refine ⟨rfl, fun s => rfl, rfl, ?_, ?_, ?_⟩
  · intro t ht
    simp [AuthMiddleware, ht]
  · intro t cl ht htyp
    have hcl := jwtParse_claims_of_eq_some ht
    subst hcl
    simp [AuthMiddleware, ht, htyp]
  · intro h uid hout
    cases h with
    | missing => simp [AuthMiddleware] at hout
    | nonBearer s => simp [AuthMiddleware] at hout
    | bearer p =>
      cases p with
      | malformed => simp [AuthMiddleware] at hout
      | tok t =>
        refine ⟨t, rfl, ?_⟩
        simp only [AuthMiddleware] at hout
        cases hp : jwtParse secret now t with
        | none => rw [hp] at hout; simp at hout
        | some cl =>
          have hcl := jwtParse_claims_of_eq_some hp
          subst hcl
          rw [hp] at hout
          by_cases htyp : t.claims.typ = some "access"
          · refine ⟨rfl, htyp, ?_⟩
            simp [htyp] at hout
            cases hu : t.claims.userId with
            | none => rw [hu] at hout; simp at hout
            | some v =>
              rw [hu] at hout
              simp at hout
              rw [hout]
          · simp [htyp] at hout

/-- C6 witness: a signed, unexpired refresh token presented at the gate is
rejected with 401 and the handler never runs. -/
theorem auth_gate_halts_witness :
    AuthMiddleware "s" 50 (.bearer (.tok (generateTokens "s" 7 0).2)) =
      .rejected 401 "Invalid token type" :=
  (auth_gate_halts "s" 50).2.2.2.2.1 (generateTokens "s" 7 0).2
    (generateTokens "s" 7 0).2.claims (by decide) (by decide)

/-- C7: presenting a minted access token at the refresh endpoint answers 401
whatever the clock says, and presenting a minted refresh token at the Auth
Gate is rejected with 401. -/
theorem token_type_confusion_rejected
    (db : DB) (secret : String) (uid now now2 : Nat) (hsec : secret ≠ "") :
    (RefreshToken secret now2 db (some (.tok (generateTokens secret uid now).1))).status
      = 401 ∧
    (∃ msg, AuthMiddleware secret now2 (.bearer (.tok (generateTokens secret uid now).2)) =
      .rejected 401 msg) := by
  constructor
  · simp only [RefreshToken]
    rw [if_neg (by simp [hsec])]
    cases hp : jwtParse secret now2 (generateTokens secret uid now).1 with
    | none => rfl
    | some cl =>
      have hcl := jwtParse_claims_of_eq_some hp
      subst hcl
      rfl
  · cases hp : jwtParse secret now2 (generateTokens secret uid now).2 with
    | none => exact ⟨"Invalid or expired token", by simp [AuthMiddleware, hp]⟩
    | some cl =>
      have hcl := jwtParse_claims_of_eq_some hp
      subst hcl
      refine ⟨"Invalid token type", ?_⟩
      simp only [AuthMiddleware]
      rw [hp]
      simp [generateTokens]

/-- C7 witness at a concrete secret, subject and clock. -/
theorem token_type_confusion_rejected_witness :
    (RefreshToken "s" 0 demoDB (some (.tok (generateTokens "s" 1 0).1))).status = 401 ∧
    (∃ msg, AuthMiddleware "s" 0 (.bearer (.tok (generateTokens "s" 1 0).2)) =
      .rejected 401 msg) :=
  token_type_confusion_rejected demoDB "s" 1 0 0 (by decide)

/-- C3 counterexample: registering a second account with an email that already
has a credential record answers HTTP 500, a server-fault status, not a
conflict-class (4xx) client error as the claim states. -/
theorem register_duplicate_counterexample :
    (Register "s" 0 demoDB "Eve" "alice@example.com" "hunter22").1.status = 500 ∧
    ¬(400 ≤ (Register "s" 0 demoDB "Eve" "alice@example.com" "hunter22").1.status ∧
      (Register "s" 0 demoDB "Eve" "alice@example.com" "hunter22").1.status < 500) := by
  decide

/-- C3 amended: registering with an email that already has a credential record
fails atomically (the store is returned unchanged, no record created) with the
specific message about the email being already registered, but carried on an
HTTP 500 server-fault status rather than a conflict-class client error. -/
theorem register_duplicate_atomic
    (secret : String) (now : Nat) (db : DB) (name email pw : String)
    (hvalid : validRegisterInput name email pw = true)
    (hdup : db.users.any (fun u => u.email == email) = true) :
    Register secret now db name email pw =
      (.err 500 "Failed to create user. Email might already be registered.", db) := by
  simp [Register, hvalid, hdup]

/-- C3 witness at a concrete store holding the duplicate email. -/
theorem register_duplicate_atomic_witness :
    Register "s" 0 demoDB "Eve" "alice@example.com" "hunter22" =
      (.err 500 "Failed to create user. Email might already be registered.", demoDB) :=
  register_duplicate_atomic "s" 0 demoDB "Eve" "alice@example.com" "hunter22"
    (by decide) (by decide)

/-- C4 counterexample: the unauthenticated debug endpoint /auth/check-user
answers differently for an email that has a credential record and one that
does not, so an unauthenticated caller can distinguish account existence. -/
theorem account_existence_leak_counterexample :
    CheckUserExists demoDB "alice@example.com" ≠ CheckUserExists demoDB "nobody@example.com" ∧
    (∃ u ∈ demoDB.users, u.email = "alice@example.com" ∧ u.deleted = false) ∧
    (∀ u ∈ demoDB.users, u.email ≠ "nobody@example.com") := by
  decide

/-- C4 amended: login itself answers with the identical uniform 401 body
whether the email is unknown or the password is wrong; however, account
existence still leaks to unauthenticated callers through the public
/auth/check-user debug endpoint. -/
theorem login_uniform_invalid_credentials
    (secret : String) (now : Nat) (db : DB) (email pw : String)
    (hbind : validLoginInput email pw = true)
    (hfail : db.users.find? (fun u => u.email == email && !u.deleted) = none ∨
      ∃ u, db.users.find? (fun u => u.email == email && !u.deleted) = some u ∧
        bcryptVerify u.password pw = false) :
    Login secret now db email pw = .err 401 "Invalid credentials" := by
  rcases hfail with h | ⟨u, hu, hv⟩
  · simp [Login, hbind, h]
  · simp [Login, hbind, hu, hv]

/-- C4 witness: the unknown-email response and the wrong-password response are
the same uniform 401 body. -/
theorem login_uniform_invalid_credentials_witness :
    Login "s" 0 demoDB "nobody@example.com" "whatever" = .err 401 "Invalid credentials" ∧
    Login "s" 0 demoDB "alice@example.com" "wrongpw" = .err 401 "Invalid credentials" :=
  ⟨login_uniform_invalid_credentials "s" 0 demoDB "nobody@example.com" "whatever"
      (by decide) (Or.inl (by decide)),
   login_uniform_invalid_credentials "s" 0 demoDB "alice@example.com" "wrongpw"
      (by decide) (Or.inr ⟨demoAlice, by decide, by decide⟩)⟩

/-- C9: deleting a location owned by the caller that still has dependent items
answers HTTP 400 (a client error, not a server fault) and leaves the store
unchanged, so the location record is still present afterwards. -/
theorem delete_location_referential_guard
    (db : DB) (uid locId : Nat) (l : Location)
    (h0 : uid ≠ 0)
    (hl : db.locations.find? (fun x => x.id == locId && x.userId == uid) = some l)
    (hdep : ∃ x ∈ db.items, x.locationId = locId) :
    DeleteLocation db uid locId = (.err 400 "Cannot delete location with linked items", db) ∧
    l ∈ (DeleteLocation db uid locId).2.locations := by
  have hcount : 0 < db.items.countP (fun x => x.locationId == locId) := by
    rw [List.countP_pos_iff]
    obtain ⟨x, hx, hxe⟩ := hdep
    exact ⟨x, hx, by simp [hxe]⟩
  have heq : DeleteLocation db uid locId =
      (.err 400 "Cannot delete location with linked items", db) := by
    simp [DeleteLocation, h0, hl, hcount]
  exact ⟨heq, by rw [heq]; exact List.mem_of_find?_eq_some hl⟩

/-- C9 witness: deleting the owned shelf location, which holds the demo item,
fails with 400 and the location survives. -/
theorem delete_location_referential_guard_witness :
    DeleteLocation demoDB 1 20 = (.err 400 "Cannot delete location with linked items", demoDB) ∧
    demoLoc ∈ (DeleteLocation demoDB 1 20).2.locations :=
  delete_location_referential_guard demoDB 1 20 demoLoc (by decide) (by decide)
    ⟨demoItem, by decide, by decide⟩

/-- C10: the user-record handlers never read the authenticated identity, so
for any two identities A and B with A distinct from B, a request authenticated
as A reads, updates (email and password included) and soft-deletes the record
of B exactly as B could: the outcome of each handler is independent of the
identity, and each operation succeeds with 200. -/
theorem user_records_not_ownership_protected
    (db : DB) (A B : Nat) (u : User) (upd : UserUpdate)
    (hAB : A ≠ B)
    (hu : db.users.find? (fun v => v.id == B && !v.deleted) = some u)
    (hmail : upd.email ≠ "")
    (hfree : db.users.any (fun v => v.email == upd.email && !(v.id == B) && !v.deleted) = false) :
    (∀ A2 : Nat, GetUser db A2 B = GetUser db A B ∧
      UpdateUser db A2 B upd = UpdateUser db A B upd ∧
      DeleteUser db A2 B = DeleteUser db A B) ∧
    GetUser db A B = .ok 200 { u with password := "" } ∧
    (∃ r db2, UpdateUser db A B upd = (.ok 200 r, db2) ∧ r.email = upd.email) ∧
    (∃ db2, DeleteUser db A B = (.ok 200 "User successfully deleted", db2) ∧
      db2.users.find? (fun v => v.id == B && !v.deleted) = none) := by
  have huB : u.id = B := by
    have hp := List.find?_some hu
    simp at hp
    exact hp.1
  refine ⟨fun A2 => ⟨rfl, rfl, rfl⟩, ?_, ?_, ?_⟩
  · simp [GetUser, hu]
  · simp only [UpdateUser, hu]
    rw [if_neg (by simp [hfree])]
    refine ⟨_, _, rfl, ?_⟩
    split <;> simp [hmail]
  · simp only [DeleteUser, hu]
    refine ⟨_, rfl, ?_⟩
    apply find?_eq_none_of_all
    intro x hx
    obtain ⟨v, hv, hfx⟩ := List.mem_map.mp hx
    by_cases hvid : v.id = u.id
    · rw [if_pos (by simp [hvid])] at hfx
      subst hfx
      simp
    · rw [if_neg (by simp [hvid])] at hfx
      subst hfx
      simp [huB ▸ hvid]

/-- C10 witness: Alice (id 1) reads, updates and deletes the record of Bob
(id 2) with only her own authenticated identity. -/
theorem user_records_not_ownership_protected_witness :
    (∀ A2 : Nat, GetUser demoDB A2 2 = GetUser demoDB 1 2 ∧
      UpdateUser demoDB A2 2 ⟨"Mallory", "mallory@example.com", "newpw99"⟩ =
        UpdateUser demoDB 1 2 ⟨"Mallory", "mallory@example.com", "newpw99"⟩ ∧
      DeleteUser demoDB A2 2 = DeleteUser demoDB 1 2) ∧
    GetUser demoDB 1 2 = .ok 200 { demoBob with password := "" } ∧
    (∃ r db2, UpdateUser demoDB 1 2 ⟨"Mallory", "mallory@example.com", "newpw99"⟩ =
      (.ok 200 r, db2) ∧ r.email = "mallory@example.com") ∧
    (∃ db2, DeleteUser demoDB 1 2 = (.ok 200 "User successfully deleted", db2) ∧
      db2.users.find? (fun v => v.id == 2 && !v.deleted) = none) :=
  user_records_not_ownership_protected demoDB 1 2 demoBob
    ⟨"Mallory", "mallory@example.com", "newpw99"⟩
    (by decide) (by decide) (by decide) (by decide)

/-- C1: ownership isolation.  For distinct authenticated identities A and B,
an item whose owner is A answers 403 to B on read, update and delete (with the
store unchanged), and a location whose rows with the requested id are owned by
A answers 404 to B on read, update and delete (with the store unchanged); the
only exception is that a public (owner 0) location is readable by any
authenticated identity. -/
theorem ownership_isolation
    (db : DB) (A B itemId locId pubId : Nat) (it : Item) (ibody : Item) (lbody : Location)
    (hAB : A ≠ B) (hA0 : A ≠ 0) (hB0 : B ≠ 0)
    (hit : db.items.find? (fun x => x.id == itemId) = some it)
    (hitOwner : it.userId = A)
    (hloc : ∀ l ∈ db.locations, l.id = locId → l.userId = A)
    (hpubAll : ∀ l ∈ db.locations, l.id = pubId → l.userId = 0)
    (hpubEx : ∃ l ∈ db.locations, l.id = pubId) :
    GetItem db B itemId = .err 403 "You do not have permission to view this item" ∧
    UpdateItem db B itemId ibody =
      (.err 403 "You do not have permission to update this item", db) ∧
    DeleteItem db B itemId =
      (.err 403 "You do not have permission to delete this item", db) ∧
    GetLocation db B locId = .err 404 "Location not found or access denied" ∧
    UpdateLocation db B locId lbody =
      (.err 404 "Location not found or no permission to update it", db) ∧
    DeleteLocation db B locId =
      (.err 404 "Location not found or no permission to delete it", db) ∧
    (∃ l, GetLocation db B pubId = .ok 200 l ∧ l.userId = 0) := by
  have hnoneRead :
      db.locations.find? (fun x => x.id == locId && (x.userId == B || x.userId == 0)) = none := by
    apply find?_eq_none_of_all
    intro x hx
    by_cases hid : x.id = locId
    · have hux := hloc x hx hid
      simp [hid, hux, hAB, hA0]
    · simp [hid]
  have hnoneOwn :
      db.locations.find? (fun x => x.id == locId && x.userId == B) = none := by
    apply find?_eq_none_of_all
    intro x hx
    by_cases hid : x.id = locId
    · have hux := hloc x hx hid
      simp [hid, hux, hAB]
    · simp [hid]
  refine ⟨?_, ?_, ?_, ?_, ?_, ?_, ?_⟩
  · simp [GetItem, hit, hitOwner, hAB]
  · simp [UpdateItem, hit, hitOwner, hAB]
  · simp [DeleteItem, hit, hitOwner, hAB]
  · simp [GetLocation, hB0, hnoneRead]
  · simp [UpdateLocation, hB0, hnoneOwn]
  · simp [DeleteLocation, hB0, hnoneOwn]
  · obtain ⟨l, hfind, hl0⟩ := find?_public_location B pubId db.locations hpubAll hpubEx
    exact ⟨l, by simp [GetLocation, hB0, hfind], hl0⟩

/-- C1 witness: Bob (id 2) can neither read, update nor delete the item and
the location owned by Alice (id 1), and the public location stays readable. -/
theorem ownership_isolation_witness :
    GetItem demoDB 2 10 = .err 403 "You do not have permission to view this item" ∧
    UpdateItem demoDB 2 10 ⟨10, "x", "y", 99, 20, ""⟩ =
      (.err 403 "You do not have permission to update this item", demoDB) ∧
    DeleteItem demoDB 2 10 =
      (.err 403 "You do not have permission to delete this item", demoDB) ∧
    GetLocation demoDB 2 20 = .err 404 "Location not found or access denied" ∧
    UpdateLocation demoDB 2 20 ⟨20, "x", "y", "", 99⟩ =
      (.err 404 "Location not found or no permission to update it", demoDB) ∧
    DeleteLocation demoDB 2 20 =
      (.err 404 "Location not found or no permission to delete it", demoDB) ∧
    (∃ l, GetLocation demoDB 2 30 = .ok 200 l ∧ l.userId = 0) :=
  ownership_isolation demoDB 1 2 10 20 30 demoItem ⟨10, "x", "y", 99, 20, ""⟩
    ⟨20, "x", "y", "", 99⟩ (by decide) (by decide) (by decide) (by decide) (by decide)
    (by decide) (by decide) ⟨demoPublicLoc, by decide, by decide⟩

/-- C2: owner immutability.  A created item or location stores the
authenticated identity as owner whatever owner value the body carried, and a
successful update stores a record whose owner equals the owner stored before
the update, whatever the caller submitted. -/
theorem owner_immutability
    (db : DB) (uid itemId locId : Nat) (cbody ubody : Item) (clbody ulbody : Location)
    (it : Item) (l : Location)
    (hu0 : uid ≠ 0)
    (hit : db.items.find? (fun x => x.id == itemId) = some it)
    (hitOwn : it.userId = uid)
    (hl : db.locations.find? (fun x => x.id == locId && x.userId == uid) = some l) :
    (∀ s r, (CreateItem db uid cbody).1 = .ok s r → r.userId = uid) ∧
    (∀ s r, (CreateLocation db uid clbody).1 = .ok s r → r.userId = uid) ∧
    (∃ r db2, UpdateItem db uid itemId ubody = (.ok 200 r, db2) ∧ r.userId = it.userId) ∧
    (∃ r db2, UpdateLocation db uid locId ulbody = (.ok 200 r, db2) ∧ r.userId = l.userId) := by
  refine ⟨?_, ?_, ?_, ?_⟩
  · intro s r h
    simp [CreateItem] at h
    rw [← h.2]
  · intro s r h
    simp [CreateLocation, hu0] at h
    rw [← h.2]
  · simp only [UpdateItem, hit]
    rw [if_neg (by simp [hitOwn])]
    exact ⟨_, _, rfl, rfl⟩
  · simp only [UpdateLocation]
    rw [if_neg (by simp [hu0]), hl]
    exact ⟨_, _, rfl, rfl⟩

/-- C2 witness: creating with owner 99 in the body still stores Alice (id 1)
as owner, and updating with owner 99 in the body preserves the stored owner. -/
theorem owner_immutability_witness :
    (∀ s r, (CreateItem demoDB 1 ⟨0, "n", "d", 99, 20, ""⟩).1 = .ok s r → r.userId = 1) ∧
    (∀ s r, (CreateLocation demoDB 1 ⟨0, "n", "d", "", 99⟩).1 = .ok s r → r.userId = 1) ∧
    (∃ r db2, UpdateItem demoDB 1 10 ⟨10, "n", "d", 99, 20, ""⟩ = (.ok 200 r, db2) ∧
      r.userId = demoItem.userId) ∧
    (∃ r db2, UpdateLocation demoDB 1 20 ⟨20, "n", "d", "", 99⟩ = (.ok 200 r, db2) ∧
      r.userId = demoLoc.userId) :=
  owner_immutability demoDB 1 10 20 ⟨0, "n", "d", 99, 20, ""⟩ ⟨10, "n", "d", 99, 20, ""⟩
    ⟨0, "n", "d", "", 99⟩ ⟨20, "n", "d", "", 99⟩ demoItem demoLoc
    (by decide) (by decide) (by decide) (by decide)

end InventoryAPI
